import Mathlib

/-!
Verification of the mt-quality-api scoring service (gemba_score package).

This file gives a shallow embedding of the request-scoring pipeline:
  - prompt builders (src/gemba_score/prompts.py),
  - numeric score extraction (src/gemba_score/services/scoring.py,
    function _extract_last_number, regex -?\d+(?:\.\d+)?),
  - the scoring orchestrator (ScoringService) with an instrumented LLM
    gateway recording the calls it makes,
  - the API handlers score_translation and list_scores
    (src/gemba_score/api.py) together with the header dependency
    require_app_id (src/gemba_score/dependencies.py) and the persisted
    row / response schemas (models.py, schemas.py).

Modelling conventions: Python floats are modelled as rationals, UUIDs and
timestamps as naturals, exceptions as Except values, and the async LLM
gateway as a function-valued stub (LLMClient).  The SQL query of
list_scores (filter, ORDER BY created_at DESC, LIMIT) is modelled by
List.filter, a sort by descending created_at, and List.take.
-/

set_option maxRecDepth 40000

deriving instance DecidableEq for Except

/-- Python str.strip(): remove leading and trailing whitespace (library
call, modelled over the character list). -/
def pyStrip (s : String) : String :=
  ⟨(((s.data.dropWhile Char.isWhitespace).reverse).dropWhile Char.isWhitespace).reverse⟩

/-- Role/content pair sent to the LLM, from services/llm.py, class ChatMessage. -/
structure ChatMessage where
  role : String
  content : String
deriving DecidableEq

/-- Errors of the scoring pipeline: ScoringServiceError (services/scoring.py)
carries its message; LLMClientError (services/llm.py) is raised by the gateway
and is not caught by the API handler. -/
inductive ScoringError where
  | scoringServiceError (msg : String)
  | llmClientError (msg : String)
deriving DecidableEq

/-- One recorded call to the LLM gateway: either a plain completion or a
structured parse with one of the two response models of scoring.py. -/
inductive LLMCall where
  | complete (messages : List ChatMessage)
  | parseMQM (messages : List ChatMessage)
  | parseSDA (messages : List ChatMessage)
deriving DecidableEq

/-- Structured response model MQMEval, from services/scoring.py. -/
structure MQMEval where
  score : ℚ
  analysis : String
deriving DecidableEq

/-- Structured response model StructuredDAReturn, from services/scoring.py. -/
structure StructuredDAReturn where
  score : ℚ
  adequacy : ℚ
  fluency : ℚ
  rationale : String
deriving DecidableEq

/-- Stub over the LLM gateway capability set (LLMClientProtocol in
services/llm.py): complete returns text or a transport error; the parse
operations return the structured payload of the response, or none when the
response carries no parsed object (then _expect_parsed raises), or a
transport error.  The generic parse of the protocol is specialised to the
two response models used by the orchestrator. -/
structure LLMClient where
  complete : List ChatMessage → Except String String
  parseMQM : List ChatMessage → Except String (Option MQMEval)
  parseSDA : List ChatMessage → Except String (Option StructuredDAReturn)

/-- The four ScoringMethod enumeration values of schemas.py, as the strings
they are (ScoringMethod is a str Enum, so comparison is on these values). -/
def scoringMethods : List String :=
  ["GEMBA-DA", "GEMBA-MQM", "GEMBA-ESA", "STRUCTURED-DA"]

/-- Input schema ScoreRequest of schemas.py; the method field is kept at the
string level so that out-of-enumeration values can be discussed. -/
structure ScoreRequest where
  source_lang : String
  target_lang : String
  source_text : String
  target_text : String
  method : String
deriving DecidableEq

/-- Orchestration result ScoreComputation, from services/scoring.py. -/
structure ScoreComputation where
  method : String
  score : ℚ
  llm_model : String
  raw_response : String
  adequacy : Option ℚ := none
  fluency : Option ℚ := none
  rationale : Option String := none
deriving DecidableEq

/-- Persisted row TranslationScore, from models.py (all columns). -/
structure TranslationScore where
  id : Nat
  app_id : String
  source_lang : String
  target_lang : String
  source_text : String
  target_text : String
  scoring_method : String
  llm_model : String
  score : ℚ
  adequacy_score : Option ℚ
  fluency_score : Option ℚ
  rationale : Option String
  raw_llm_response : Option String
  created_at : Nat
deriving DecidableEq

/-- Response schema TranslationScoreRecord of schemas.py: exactly the fields
declared there (note: it has no source_text and no raw-response field). -/
structure TranslationScoreRecord where
  id : Nat
  app_id : String
  source_lang : String
  target_lang : String
  scoring_method : String
  llm_model : String
  score : ℚ
  adequacy_score : Option ℚ
  fluency_score : Option ℚ
  rationale : Option String
  created_at : Nat
  target_text : String
deriving DecidableEq

/-- Response schema ScoreResponse of schemas.py. -/
structure ScoreResponse where
  score : ℚ
  method_used : String
  request_id : Nat
  adequacy : Option ℚ := none
  fluency : Option ℚ := none
  rationale : Option String := none
deriving DecidableEq

/-- Outcome of the POST /score handler: a success body, an HTTPException
with status code and detail, or an exception not caught by the handler
(which the framework maps to a plain 500). -/
inductive ScoreOutcome where
  | ok (resp : ScoreResponse)
  | httpError (code : Nat) (detail : String)
  | unhandled (msg : String)
deriving DecidableEq

/-- HTTP status of an outcome; an unhandled exception surfaces as 500. -/
def ScoreOutcome.status : ScoreOutcome → Nat
  | .ok _ => 200
  | .httpError c _ => c
  | .unhandled _ => 500

/-- The string s contains sub verbatim as a contiguous substring. -/
def ContainsStr (s sub : String) : Prop :=
  ∃ pre post, s = pre ++ sub ++ post

/-! ## Prompt builders (prompts.py), with dedent/strip/format evaluated -/

/-- gemba_da_prompt of prompts.py. -/
def gemba_da_prompt (payload : ScoreRequest) : String :=
  "Score the following translation from " ++ payload.source_lang ++ " to " ++
    payload.target_lang ++
    " on a continuous\nscale from 0 to 100, where a score of zero means \"no meaning preserved\" and score of one\nhundred means \"perfect meaning and grammar\".\n\n" ++
    payload.source_lang ++ " source: \"" ++ payload.source_text ++ "\"\n" ++
    payload.target_lang ++ " translation: \"" ++ payload.target_text ++ "\"\nScore:"

/-- gemba_mqm_system_prompt of prompts.py. -/
def gemba_mqm_system_prompt : String :=
  "You are an expert MQM evaluator. Identify translation errors and output a holistic quality\nscore on a 0-100 scale (0 = unusable, 100 = perfect). Return ONLY JSON: \x7b\"score\": number,\n\"analysis\": string describing notable errors\x7d."

/-- gemba_mqm_few_shot_user of prompts.py. -/
def gemba_mqm_few_shot_user : String :=
  "English source:\n```Hello world.```\nGerman translation:\n```Hallo Welt.```\n\nBased on the source segment and machine translation surrounded with triple backticks,\nidentify error types in the translation and classify them."

/-- gemba_mqm_final_user of prompts.py. -/
def gemba_mqm_final_user (payload : ScoreRequest) : String :=
  payload.source_lang ++ " source:\n```" ++ payload.source_text ++ "```\n" ++
    payload.target_lang ++ " translation:\n```" ++ payload.target_text ++
    "```\n\nBased on the source segment and machine translation surrounded with triple backticks,\nidentify error types in the translation and classify them. The categories of errors are:\naccuracy (addition, mistranslation, omission, untranslated text), fluency (character\nencoding, grammar, inconsistency, punctuation, register, spelling), style (awkward),\nterminology (inappropriate for context, inconsistent use), non-translation, other, or\nno-error. Each error is classified as one of three categories: critical, major, and minor.\nCritical errors inhibit comprehension of the text. Major errors disrupt the flow, but what\nthe text is trying to say is still understandable. Minor errors are technically errors, but\ndo not disrupt the flow or hinder comprehension."

/-- gemba_esa_error_prompt of prompts.py. -/
def gemba_esa_error_prompt (payload : ScoreRequest) : String :=
  payload.source_lang ++ " source:\n```" ++ payload.source_text ++ "```\n" ++
    payload.target_lang ++ " translation:\n```" ++ payload.target_text ++
    "```\n\nBased on the source segment and machine translation surrounded with triple backticks,\nidentify error types in the translation and classify them. The categories of errors are:\naccuracy (addition, mistranslation, omission, untranslated text), fluency (character\nencoding, grammar, inconsistency, punctuation, register, spelling), style (awkward),\nterminology (inappropriate for context, inconsistent use), non-translation, other, or\nno-error. Each error is classified as one of two categories: major or minor. Major errors\ndisrupt the flow and make the understandability of text difficult or impossible. Minor\nerrors are errors that do not disrupt the flow significantly and what the text is trying to\nsay is still understandable."

/-- gemba_esa_scoring_prompt of prompts.py; errors is embedded verbatim. -/
def gemba_esa_scoring_prompt (payload : ScoreRequest) (errors : String) : String :=
  "Given the translation from " ++ payload.source_lang ++ " to " ++ payload.target_lang ++
    " and the annotated error spans,\nassign a score on a continuous scale from 0 to 100. The scale has following reference\npoints:\n0=\"No meaning preserved\", 33=\"Some meaning preserved\", 66=\"Most meaning preserved and few\ngrammar mistakes\", up to 100=\"Perfect meaning and grammar\".\n\nScore the following translation from " ++
    payload.source_lang ++ " source:\n```" ++ payload.source_text ++ "```\n" ++
    payload.target_lang ++ " translation:\n```" ++ payload.target_text ++
    "```\nAnnotated error spans:\n```" ++ errors ++ "```\nScore (0-100):"

/-- structured_da_system_message of prompts.py. -/
def structured_da_system_message : String :=
  "You are an expert bilingual evaluator of machine translation quality. Be strict but fair."

/-- structured_da_user_message of prompts.py. -/
def structured_da_user_message (payload : ScoreRequest) : String :=
  "Evaluate the quality of the following machine translation from " ++ payload.source_lang ++
    " to\n" ++ payload.target_lang ++
    ".\nReturn ONLY a JSON object with these fields:\nscore: holistic quality 0-100 (float)\nadequacy: semantic accuracy and completeness 0-5 (float, where 5 = perfect meaning\npreservation)\nfluency: grammatical correctness and naturalness 0-5 (float, where 5 = perfect native\nfluency)\nrationale: brief explanation of the score (1-2 sentences)\n\n" ++
    payload.source_lang ++ " source: " ++ payload.source_text ++ "\n" ++
    payload.target_lang ++ " hypothesis: " ++ payload.target_text ++
    "\n\nIMPORTANT: Output valid JSON only, no markdown fences or extra text."

/-! ## Numeric extraction (_extract_last_number, regex -?\d+(?:\.\d+)?) -/

/-- Optional fractional part at the head of l: consumes a dot followed by at
least one digit (greedily), as the regex group (?:\.\d+)? does; returns the
consumed characters and the remainder. -/
def matchFrac (l : List Char) : List Char × List Char :=
  match l with
  | '.' :: c :: rest =>
    if c.isDigit then
      ('.' :: (c :: rest).takeWhile Char.isDigit, (c :: rest).dropWhile Char.isDigit)
    else ([], '.' :: c :: rest)
  | _ => ([], l)

/-- Match of the regex -?\d+(?:\.\d+)? anchored at the head of l: an optional
minus sign, one or more digits (greedy), an optional fraction; returns the
matched token and the rest of the input, or none when no match starts here. -/
def matchNumAt : List Char → Option (List Char × List Char)
  | '-' :: c :: rest =>
    if c.isDigit then
      let ds := (c :: rest).takeWhile Char.isDigit
      let r := (c :: rest).dropWhile Char.isDigit
      let fr := matchFrac r
      some ('-' :: (ds ++ fr.1), fr.2)
    else none
  | c :: rest =>
    if c.isDigit then
      let ds := (c :: rest).takeWhile Char.isDigit
      let r := (c :: rest).dropWhile Char.isDigit
      let fr := matchFrac r
      some (ds ++ fr.1, fr.2)
    else none
  | [] => none

/-- Scanner of re.findall: try a match at each position, emit the token and
continue after it (matches are non-overlapping), otherwise advance one
character.  Structural recursion on a fuel that starts at the input length,
which suffices because every step consumes at least one character. -/
def findNumbersAux : Nat → List Char → List (List Char)
  | 0, _ => []
  | _ + 1, [] => []
  | fuel + 1, c :: rest =>
    match matchNumAt (c :: rest) with
    | some (tok, r) => tok :: findNumbersAux fuel r
    | none => findNumbersAux fuel rest

/-- All matches of -?\d+(?:\.\d+)? in l, in order (re.findall). -/
def findNumbers (l : List Char) : List (List Char) := findNumbersAux l.length l

/-- Decimal value of a digit string. -/
def digitsToNat (l : List Char) : Nat :=
  l.foldl (fun n c => 10 * n + (c.toNat - '0'.toNat)) 0

/-- Value of an unsigned token: integer part plus optional fraction
(Python float() of the matched text, modelled exactly over ℚ). -/
def parseUnsigned (l : List Char) : ℚ :=
  let intPart := l.takeWhile Char.isDigit
  match l.dropWhile Char.isDigit with
  | '.' :: frac => (digitsToNat intPart : ℚ) + (digitsToNat frac : ℚ) / 10 ^ frac.length
  | _ => (digitsToNat intPart : ℚ)

/-- Value of a matched token, with its optional leading minus sign. -/
def parseNumber : List Char → ℚ
  | '-' :: rest => -(parseUnsigned rest)
  | l => parseUnsigned l

/-- _extract_last_number of services/scoring.py: all numeric tokens are
collected, the last one is parsed; if none is found a ScoringServiceError
with the message below is raised. -/
def extract_last_number (text : String) : Except String ℚ :=
  match (findNumbers text.data).getLast? with
  | none => .error ("Could not parse numeric score from LLM response")
  | some tok => .ok (parseNumber tok)

/-! ## Scoring orchestrator (ScoringService of services/scoring.py) -/

/-- Few-shot assistant turn hard-coded in _score_gemba_mqm. -/
def few_shot_assistant : String :=
  "\x7b\"score\": 100, \"analysis\": \"No errors detected; translation is perfect.\"\x7d"

/-- Serialization parsed.model_dump_json() of an MQMEval (pydantic library
call, modelled as a plain JSON rendering of the two fields). -/
def MQMEval.model_dump_json (m : MQMEval) : String :=
  "\x7b\"score\": " ++ toString m.score ++ ", \"analysis\": \"" ++ m.analysis ++ "\"\x7d"

/-- Serialization parsed.model_dump_json() of a StructuredDAReturn (pydantic
library call, modelled as a plain JSON rendering of the four fields). -/
def StructuredDAReturn.model_dump_json (m : StructuredDAReturn) : String :=
  "\x7b\"score\": " ++ toString m.score ++ ", \"adequacy\": " ++ toString m.adequacy ++
    ", \"fluency\": " ++ toString m.fluency ++ ", \"rationale\": \"" ++ m.rationale ++ "\"\x7d"

/-- _score_gemba_da: one complete call, last-number extraction, no
adequacy/fluency/rationale.  The second component records the gateway calls
made, in order. -/
def score_gemba_da (llm : LLMClient) (model_name : String) (payload : ScoreRequest) :
    Except ScoringError ScoreComputation × List LLMCall :=
  let messages : List ChatMessage := [⟨"user", gemba_da_prompt payload⟩]
  match llm.complete messages with
  | .error e => (.error (.llmClientError e), [.complete messages])
  | .ok response =>
    match extract_last_number response with
    | .error msg => (.error (.scoringServiceError msg), [.complete messages])
    | .ok score =>
      (.ok { method := payload.method, score := score, llm_model := model_name,
             raw_response := response }, [.complete messages])

/-- _score_gemba_mqm: one parse call with system + one-shot example + final
user message; score and analysis are taken from the structured payload. -/
def score_gemba_mqm (llm : LLMClient) (model_name : String) (payload : ScoreRequest) :
    Except ScoringError ScoreComputation × List LLMCall :=
  let messages : List ChatMessage :=
    [⟨"system", gemba_mqm_system_prompt⟩, ⟨"user", gemba_mqm_few_shot_user⟩,
     ⟨"assistant", few_shot_assistant⟩, ⟨"user", gemba_mqm_final_user payload⟩]
  match llm.parseMQM messages with
  | .error e => (.error (.llmClientError e), [.parseMQM messages])
  | .ok none =>
    (.error (.scoringServiceError ("LLM response missing structured payload")),
     [.parseMQM messages])
  | .ok (some parsed) =>
    (.ok { method := payload.method, score := parsed.score, llm_model := model_name,
           raw_response := parsed.model_dump_json, rationale := some parsed.analysis },
     [.parseMQM messages])

/-- _score_gemba_esa: two sequential complete calls; the second prompt embeds
the first response verbatim; extraction as in GEMBA-DA on the second
response; raw_response concatenates both responses with a marker. -/
def score_gemba_esa (llm : LLMClient) (model_name : String) (payload : ScoreRequest) :
    Except ScoringError ScoreComputation × List LLMCall :=
  let error_messages : List ChatMessage := [⟨"user", gemba_esa_error_prompt payload⟩]
  match llm.complete error_messages with
  | .error e => (.error (.llmClientError e), [.complete error_messages])
  | .ok error_analysis =>
    let score_messages : List ChatMessage :=
      [⟨"user", gemba_esa_scoring_prompt payload error_analysis⟩]
    match llm.complete score_messages with
    | .error e =>
      (.error (.llmClientError e), [.complete error_messages, .complete score_messages])
    | .ok score_response =>
      match extract_last_number score_response with
      | .error msg =>
        (.error (.scoringServiceError msg),
         [.complete error_messages, .complete score_messages])
      | .ok score =>
        (.ok { method := payload.method, score := score, llm_model := model_name,
               raw_response :=
                 "Errors:\n" ++ error_analysis ++ "\n---\nScore:\n" ++ score_response },
         [.complete error_messages, .complete score_messages])

/-- _score_structured_da: one parse call with system + user message; all four
fields are carried over from the structured payload. -/
def score_structured_da (llm : LLMClient) (model_name : String) (payload : ScoreRequest) :
    Except ScoringError ScoreComputation × List LLMCall :=
  let messages : List ChatMessage :=
    [⟨"system", structured_da_system_message⟩, ⟨"user", structured_da_user_message payload⟩]
  match llm.parseSDA messages with
  | .error e => (.error (.llmClientError e), [.parseSDA messages])
  | .ok none =>
    (.error (.scoringServiceError ("LLM response missing structured payload")),
     [.parseSDA messages])
  | .ok (some parsed) =>
    (.ok { method := payload.method, score := parsed.score, llm_model := model_name,
           raw_response := parsed.model_dump_json, adequacy := some parsed.adequacy,
           fluency := some parsed.fluency, rationale := some parsed.rationale },
     [.parseSDA messages])

/-- ScoringService.score: strategy dispatch on the method value; the str-Enum
comparisons of the source become string comparisons; any other value raises
ScoringServiceError with the unsupported-method message, before any gateway
call. -/
def ScoringService.score (llm : LLMClient) (model_name : String) (payload : ScoreRequest) :
    Except ScoringError ScoreComputation × List LLMCall :=
  if payload.method = "GEMBA-DA" then score_gemba_da llm model_name payload
  else if payload.method = "GEMBA-MQM" then score_gemba_mqm llm model_name payload
  else if payload.method = "GEMBA-ESA" then score_gemba_esa llm model_name payload
  else if payload.method = "STRUCTURED-DA" then score_structured_da llm model_name payload
  else (.error (.scoringServiceError ("Unsupported scoring method: " ++ payload.method)), [])

/-! ## API surface (dependencies.py, api.py) -/

/-- require_app_id of dependencies.py: the X-APP-ID header must be present
and non-blank; the stripped value is returned, otherwise HTTP 401. -/
def require_app_id (x_app_id : Option String) : Except (Nat × String) String :=
  match x_app_id with
  | none => .error (401, "Missing X-APP-ID header")
  | some s =>
    if pyStrip s = "" then .error (401, "Missing X-APP-ID header") else .ok (pyStrip s)

/-- score_translation of api.py: run require_app_id, then the scoring
service; a ScoringServiceError becomes HTTPException 500, an LLMClientError
escapes the handler (framework 500); on success a row with a fresh id and
server timestamp is appended and the response echoes the computation. -/
def score_translation (x_app_id : Option String) (payload : ScoreRequest)
    (llm : LLMClient) (model_name : String) (new_id now : Nat)
    (db : List TranslationScore) : List TranslationScore × ScoreOutcome :=
  match require_app_id x_app_id with
  | .error err => (db, .httpError err.1 err.2)
  | .ok app_id =>
    match (ScoringService.score llm model_name payload).1 with
    | .error (.scoringServiceError msg) => (db, .httpError 500 msg)
    | .error (.llmClientError msg) => (db, .unhandled msg)
    | .ok result =>
      let record : TranslationScore :=
        { id := new_id, app_id := app_id, source_lang := payload.source_lang,
          target_lang := payload.target_lang, source_text := payload.source_text,
          target_text := payload.target_text, scoring_method := payload.method,
          llm_model := result.llm_model, score := result.score,
          adequacy_score := result.adequacy, fluency_score := result.fluency,
          rationale := result.rationale, raw_llm_response := some result.raw_response,
          created_at := now }
      (db ++ [record],
       .ok { score := result.score, method_used := payload.method, request_id := record.id,
             adequacy := result.adequacy, fluency := result.fluency,
             rationale := result.rationale })

/-- Projection of a stored row to the response schema, exactly the fields
copied in the list_scores handler of api.py. -/
def recordOfRow (row : TranslationScore) : TranslationScoreRecord :=
  { id := row.id, app_id := row.app_id, source_lang := row.source_lang,
    target_lang := row.target_lang, scoring_method := row.scoring_method,
    llm_model := row.llm_model, score := row.score, adequacy_score := row.adequacy_score,
    fluency_score := row.fluency_score, rationale := row.rationale,
    created_at := row.created_at, target_text := row.target_text }

/-- WHERE clauses of the list_scores query: score <= threshold when a
threshold is given, app_id equality when a non-empty app_id is given (the
handler guards the clause with Python truthiness, so an empty string skips
the filter). -/
def rowMatches (threshold : Option ℚ) (app_id : Option String)
    (r : TranslationScore) : Bool :=
  (match threshold with
   | none => true
   | some t => decide (r.score ≤ t)) &&
  (match app_id with
   | none => true
   | some a => if a = "" then true else decide (r.app_id = a))

/-- Newest-first comparison used by ORDER BY created_at DESC. -/
def newerEq (a b : TranslationScore) : Prop := b.created_at ≤ a.created_at

instance : DecidableRel newerEq := fun a b => Nat.decLe b.created_at a.created_at

instance : IsTotal TranslationScore newerEq := ⟨fun a b => Nat.le_total b.created_at a.created_at⟩

instance : IsTrans TranslationScore newerEq := ⟨fun _ _ _ hab hbc => Nat.le_trans hbc hab⟩

/-- ORDER BY created_at DESC, modelled by a sort with the newest-first
comparison. -/
def newestFirst (rows : List TranslationScore) : List TranslationScore :=
  List.insertionSort newerEq rows

/-- list_scores handler body of api.py: filter, sort newest-first, truncate
to limit, and project each row to the response schema. -/
def list_scores (limit : Nat) (threshold : Option ℚ) (app_id : Option String)
    (rows : List TranslationScore) : List TranslationScoreRecord :=
  ((newestFirst (rows.filter (rowMatches threshold app_id))).take limit).map recordOfRow

/-- Query validation of list_scores: limit integer in [1,200]. -/
def limitValid (l : Int) : Bool := 1 ≤ l && l ≤ 200

/-- Query validation of list_scores: threshold, when given, in [0,100]. -/
def thresholdValid : Option ℚ → Bool
  | none => true
  | some t => 0 ≤ t && t ≤ 100

/-- Query validation of list_scores: app_id, when given, of length >= 1. -/
def appIdValid : Option String → Bool
  | none => true
  | some a => 1 ≤ a.length

/-- GET /api/v1/scores endpoint: FastAPI validates the query parameters
(limit defaults to 25) and rejects invalid ones with 422, then the handler
body runs. -/
def list_scores_endpoint (limit : Option Int) (threshold : Option ℚ)
    (app_id : Option String) (rows : List TranslationScore) :
    Except Nat (List TranslationScoreRecord) :=
  let lim := limit.getD 25
  if limitValid lim && thresholdValid threshold && appIdValid app_id then
    .ok (list_scores lim.toNat threshold app_id rows)
  else .error 422

/-! ## Concrete fixtures used by counterexamples and witnesses -/

/-- A well-formed request, parameterised by the method value. -/
def exampleRequest (method : String) : ScoreRequest :=
  { source_lang := "English", target_lang := "German",
    source_text := "The quick brown fox jumps over the lazy dog.",
    target_text := "Der schnelle braune Fuchs springt.", method := method }

/-- Deterministic gateway stub whose completions carry an integer score. -/
def okStub : LLMClient :=
  { complete := fun _ => .ok ("Score: 77"),
    parseMQM := fun _ => .ok (some { score := 88, analysis := "fine" }),
    parseSDA := fun _ =>
      .ok (some { score := 90, adequacy := 4, fluency := 5, rationale := "good" }) }

/-- Gateway stub whose completion text contains no numeric token and whose
parse operations return no structured payload. -/
def parseFailStub : LLMClient :=
  { complete := fun _ => .ok ("no numeric content"),
    parseMQM := fun _ => .ok none,
    parseSDA := fun _ => .ok none }

/-- Gateway stub for the GEMBA-ESA walk-through: the error-annotation prompt
is answered with a fixed annotation, every other prompt with a score. -/
def esaStub : LLMClient :=
  { complete := fun msgs =>
      if msgs = [⟨"user", gemba_esa_error_prompt (exampleRequest ("GEMBA-ESA"))⟩] then
        .ok ("No errors found")
      else .ok ("77"),
    parseMQM := fun _ => .error ("unused"),
    parseSDA := fun _ => .error ("unused") }

/-- A stored row with every column populated. -/
def rowA : TranslationScore :=
  { id := 1, app_id := "tenant-a", source_lang := "English", target_lang := "German",
    source_text := "Hello world.", target_text := "Hallo Welt.",
    scoring_method := "GEMBA-DA", llm_model := "gpt-4o-mini", score := 90,
    adequacy_score := none, fluency_score := none, rationale := none,
    raw_llm_response := some ("Score: 90"), created_at := 100 }

/-- The same row with a different source text and raw LLM response. -/
def rowB : TranslationScore :=
  { rowA with source_text := "A completely different source sentence.",
              raw_llm_response := some ("Reasoning first, then 90") }

/-- An older low-score row for the listing fixtures. -/
def rowLow : TranslationScore :=
  { id := 2, app_id := "ui-test", source_lang := "English", target_lang := "German",
    source_text := "bad", target_text := "schlecht", scoring_method := "GEMBA-DA",
    llm_model := "fake", score := 40, adequacy_score := none, fluency_score := none,
    rationale := none, raw_llm_response := none, created_at := 200 }

/-- A newer high-score row for the listing fixtures. -/
def rowHigh : TranslationScore :=
  { id := 3, app_id := "ui-test", source_lang := "English", target_lang := "German",
    source_text := "hi", target_text := "Hallo", scoring_method := "GEMBA-DA",
    llm_model := "fake", score := 90, adequacy_score := none, fluency_score := none,
    rationale := none, raw_llm_response := none, created_at := 300 }

/-- Fixture table for the listing witnesses. -/
def rowsFixture : List TranslationScore := [rowLow, rowHigh]

/-- The computation produced by okStub for a STRUCTURED-DA request. -/
def sdaComp : ScoreComputation :=
  { method := "STRUCTURED-DA", score := 90, llm_model := "gpt-4o-mini",
    raw_response :=
      StructuredDAReturn.model_dump_json
        { score := 90, adequacy := 4, fluency := 5, rationale := "good" },
    adequacy := some 4, fluency := some 5, rationale := some ("good") }

/-! ## Helper lemmas -/

theorem containsStr_refl (s : String) : ContainsStr s s :=
  ⟨"", "", by simp⟩

theorem containsStr_appendL (t : String) {s sub : String} (h : ContainsStr s sub) :
    ContainsStr (t ++ s) sub := by
  obtain ⟨a, b, rfl⟩ := h
  exact ⟨t ++ a, b, by simp [String.append_assoc]⟩

theorem containsStr_appendR (t : String) {s sub : String} (h : ContainsStr s sub) :
    ContainsStr (s ++ t) sub := by
  obtain ⟨a, b, rfl⟩ := h
  exact ⟨a, b ++ t, by simp [String.append_assoc]⟩

theorem append_ne_of_head {c d : Char} {l m : List Char} (hcd : c ≠ d) {x y : String}
    (hx : x.data = c :: l) (hy : y.data = d :: m) (z : String) :
    x ++ z ≠ y := by
  intro h
  have h' := congrArg String.data h
  rw [String.data_append, hx, hy, List.cons_append] at h'
  injection h' with h1 _
  exact hcd h1

theorem mem_list_scores {limit : Nat} {threshold : Option ℚ} {app_id : Option String}
    {rows : List TranslationScore} {rec : TranslationScoreRecord}
    (hmem : rec ∈ list_scores limit threshold app_id rows) :
    ∃ row ∈ rows, rec = recordOfRow row ∧ rowMatches threshold app_id row = true := by
  unfold list_scores newestFirst at hmem
  obtain ⟨row, hrow, rfl⟩ := List.mem_map.mp hmem
  have h1 : row ∈ List.insertionSort newerEq (rows.filter (rowMatches threshold app_id)) :=
    (List.take_sublist _ _).subset hrow
  have h2 : row ∈ rows.filter (rowMatches threshold app_id) :=
    ((List.perm_insertionSort newerEq _).mem_iff).mp h1
  have h3 := List.mem_filter.mp h2
  exact ⟨row, h3.1, rfl, h3.2⟩

/-! ## C1 -/

/-- C1: the claim that every record returned by GET /api/v1/scores includes
all persisted fields — in particular the source text and the raw LLM
response — is false: two stored tables whose single rows differ in source
text and raw LLM response produce identical endpoint output, so the
returned records carry neither field. -/
theorem C1_counterexample :
    rowA.source_text ≠ rowB.source_text ∧
    rowA.raw_llm_response ≠ rowB.raw_llm_response ∧
    list_scores_endpoint none none none [rowA] =
      list_scores_endpoint none none none [rowB] := by
  refine ⟨by decide, by decide, by decide⟩

/-- C1 (amended): every record returned by GET /api/v1/scores reproduces the
persisted id, app_id, source/target language, target text, scoring method,
model identifier, score, optional adequacy/fluency, optional rationale and
creation timestamp of a stored row; the source text and the raw LLM response
are not part of the response schema. -/
theorem C1_list_scores_fields (limit : Nat) (threshold : Option ℚ)
    (app_id : Option String) (rows : List TranslationScore)
    (rec : TranslationScoreRecord)
    (hmem : rec ∈ list_scores limit threshold app_id rows) :
    ∃ row ∈ rows,
      rec.id = row.id ∧ rec.app_id = row.app_id ∧ rec.source_lang = row.source_lang ∧
      rec.target_lang = row.target_lang ∧ rec.target_text = row.target_text ∧
      rec.scoring_method = row.scoring_method ∧ rec.llm_model = row.llm_model ∧
      rec.score = row.score ∧ rec.adequacy_score = row.adequacy_score ∧
      rec.fluency_score = row.fluency_score ∧ rec.rationale = row.rationale ∧
      rec.created_at = row.created_at := by
  obtain ⟨row, hrow, rfl, -⟩ := mem_list_scores hmem
  exact ⟨row, hrow, rfl, rfl, rfl, rfl, rfl, rfl, rfl, rfl, rfl, rfl, rfl, rfl⟩

/-- Concrete instantiation of C1_list_scores_fields at a one-row table. -/
theorem C1_list_scores_fields_witness :
    recordOfRow rowA ∈ list_scores 25 none none [rowA] ∧
    ∃ row ∈ [rowA],
      (recordOfRow rowA).id = row.id ∧ (recordOfRow rowA).app_id = row.app_id ∧
      (recordOfRow rowA).source_lang = row.source_lang ∧
      (recordOfRow rowA).target_lang = row.target_lang ∧
      (recordOfRow rowA).target_text = row.target_text ∧
      (recordOfRow rowA).scoring_method = row.scoring_method ∧
      (recordOfRow rowA).llm_model = row.llm_model ∧
      (recordOfRow rowA).score = row.score ∧
      (recordOfRow rowA).adequacy_score = row.adequacy_score ∧
      (recordOfRow rowA).fluency_score = row.fluency_score ∧
      (recordOfRow rowA).rationale = row.rationale ∧
      (recordOfRow rowA).created_at = row.created_at :=
  ⟨by decide, C1_list_scores_fields 25 none none [rowA] (recordOfRow rowA) (by decide)⟩

/-! ## C2 -/

/-- C2: _extract_last_number scans the text for all numeric tokens of the
regex -?\d+(?:\.\d+)?, returns the last one parsed as a number (negative and
out-of-[0,100] values pass through unmodified), and fails with the parse
error exactly when no token is found; the example text yields 98.5. -/
theorem C2_extract_last_number (t : String) (tok : List Char) :
    (findNumbers t.data = [] →
      extract_last_number t = .error ("Could not parse numeric score from LLM response")) ∧
    ((findNumbers t.data).getLast? = some tok →
      extract_last_number t = .ok (parseNumber tok)) ∧
    findNumbers ("Reasoning... intermediate 12 steps... Score: 98.5").data =
      [['1','2'], ['9','8','.','5']] ∧
    extract_last_number ("Reasoning... intermediate 12 steps... Score: 98.5") =
      .ok (197/2) ∧
    extract_last_number ("Penalty applied: -5") = .ok (-5) ∧
    extract_last_number ("Final score: 150") = .ok (150) ∧
    extract_last_number ("no numeric token here") =
      .error ("Could not parse numeric score from LLM response") := by
  refine ⟨?_, ?_, by decide, ?_, by decide, by decide, by decide⟩
  · intro h
    simp [extract_last_number, h]
  · intro h
    simp [extract_last_number, h]
  · have h : (findNumbers ("Reasoning... intermediate 12 steps... Score: 98.5").data).getLast? =
        some ['9','8','.','5'] := by decide
    have hv : parseNumber ['9','8','.','5'] = 197/2 := by
      have hp : parseNumber ['9','8','.','5'] =
          (digitsToNat ['9','8'] : ℚ) + (digitsToNat ['5'] : ℚ) / 10 ^ (1:ℕ) := rfl
      rw [hp, show digitsToNat ['9','8'] = 98 from by decide,
          show digitsToNat ['5'] = 5 from by decide]
      norm_num
    simp [extract_last_number, h, hv]

/-- Concrete instantiation of the last-match rule of C2_extract_last_number. -/
theorem C2_extract_last_number_witness :
    (findNumbers ("value 42").data).getLast? = some ['4','2'] ∧
    extract_last_number ("value 42") = .ok (parseNumber ['4','2']) :=
  ⟨by decide, (C2_extract_last_number ("value 42") ['4','2']).2.1 (by decide)⟩

/-! ## C3 -/

/-- C3: for a GEMBA-ESA request the orchestrator makes exactly two complete
calls in sequence; the second prompt embeds the first response verbatim; the
score comes from applying the GEMBA-DA last-number rule to the second
response; raw_response concatenates both responses around the marker. -/
theorem C3_gemba_esa_two_calls (payload : ScoreRequest) (llm : LLMClient)
    (model_name : String) (error_analysis score_response : String) (q : ℚ)
    (hm : payload.method = "GEMBA-ESA")
    (h1 : llm.complete [⟨"user", gemba_esa_error_prompt payload⟩] = .ok error_analysis)
    (h2 : llm.complete [⟨"user", gemba_esa_scoring_prompt payload error_analysis⟩] =
      .ok score_response)
    (hq : extract_last_number score_response = .ok q) :
    ScoringService.score llm model_name payload =
      (.ok { method := payload.method, score := q, llm_model := model_name,
             raw_response :=
               "Errors:\n" ++ error_analysis ++ "\n---\nScore:\n" ++ score_response },
       [.complete [⟨"user", gemba_esa_error_prompt payload⟩],
        .complete [⟨"user", gemba_esa_scoring_prompt payload error_analysis⟩]]) ∧
    ContainsStr (gemba_esa_scoring_prompt payload error_analysis) error_analysis := by
  constructor
  · unfold ScoringService.score
    rw [hm, if_neg (by decide), if_neg (by decide), if_pos rfl]
    simp only [score_gemba_esa, h1, h2, hq]
    rw [hm]
  · unfold gemba_esa_scoring_prompt
    repeat first
      | exact containsStr_appendL _ (containsStr_refl _)
      | apply containsStr_appendR

/-- Concrete GEMBA-ESA run against the esaStub gateway. -/
theorem C3_gemba_esa_two_calls_witness :
    (exampleRequest ("GEMBA-ESA")).method = "GEMBA-ESA" ∧
    esaStub.complete [⟨"user", gemba_esa_error_prompt (exampleRequest ("GEMBA-ESA"))⟩] =
      .ok ("No errors found") ∧
    esaStub.complete
        [⟨"user",
          gemba_esa_scoring_prompt (exampleRequest ("GEMBA-ESA")) ("No errors found")⟩] =
      .ok ("77") ∧
    extract_last_number ("77") = .ok 77 ∧
    (ScoringService.score esaStub ("gpt-4o-mini") (exampleRequest ("GEMBA-ESA")) =
      (.ok { method := (exampleRequest ("GEMBA-ESA")).method, score := 77,
             llm_model := "gpt-4o-mini",
             raw_response :=
               "Errors:\n" ++ "No errors found" ++ "\n---\nScore:\n" ++ "77" },
       [.complete [⟨"user", gemba_esa_error_prompt (exampleRequest ("GEMBA-ESA"))⟩],
        .complete
          [⟨"user",
            gemba_esa_scoring_prompt (exampleRequest ("GEMBA-ESA")) ("No errors found")⟩]]) ∧
     ContainsStr
       (gemba_esa_scoring_prompt (exampleRequest ("GEMBA-ESA")) ("No errors found"))
       ("No errors found")) :=
  ⟨rfl, by decide, by decide, by decide,
   C3_gemba_esa_two_calls (exampleRequest ("GEMBA-ESA")) esaStub ("gpt-4o-mini")
     ("No errors found") ("77") 77 rfl (by decide) (by decide) (by decide)⟩

/-! ## C4 -/

/-- C4: a method value outside the four-member enumeration makes the
orchestrator fail, before any gateway call, with the unsupported-method
ScoringServiceError; the API layer maps it to HTTP 500 (a server-side
contract violation, not a 4xx user error), and its message differs from
those of the parse errors. -/
theorem C4_unsupported_method (payload : ScoreRequest) (llm : LLMClient)
    (model_name : String) (new_id now : Nat) (db : List TranslationScore)
    (hm : payload.method ∉ scoringMethods) :
    ScoringService.score llm model_name payload =
      (.error (.scoringServiceError ("Unsupported scoring method: " ++ payload.method)),
       []) ∧
    score_translation (some ("analyst")) payload llm model_name new_id now db =
      (db, .httpError 500 ("Unsupported scoring method: " ++ payload.method)) ∧
    (ScoreOutcome.httpError 500
      ("Unsupported scoring method: " ++ payload.method)).status = 500 ∧
    "Unsupported scoring method: " ++ payload.method ≠
      "Could not parse numeric score from LLM response" ∧
    "Unsupported scoring method: " ++ payload.method ≠
      "LLM response missing structured payload" := by
  simp only [scoringMethods, List.mem_cons, List.not_mem_nil, or_false, not_or] at hm
  obtain ⟨hda, hmqm, hesa, hsda⟩ := hm
  have hscore : ScoringService.score llm model_name payload =
      (.error (.scoringServiceError ("Unsupported scoring method: " ++ payload.method)),
       []) := by
    unfold ScoringService.score
    rw [if_neg hda, if_neg hmqm, if_neg hesa, if_neg hsda]
  refine ⟨hscore, ?_, rfl, ?_, ?_⟩
  · unfold score_translation
    rw [show require_app_id (some ("analyst")) = .ok ("analyst") from by decide, hscore]
  · exact append_ne_of_head (by decide) rfl rfl payload.method
  · exact append_ne_of_head (by decide) rfl rfl payload.method

/-- Concrete unsupported method value reaching the orchestrator. -/
theorem C4_unsupported_method_witness :
    (exampleRequest ("GEMBA-XXL")).method ∉ scoringMethods ∧
    ScoringService.score parseFailStub ("gpt-4o-mini") (exampleRequest ("GEMBA-XXL")) =
      (.error (.scoringServiceError
        ("Unsupported scoring method: " ++ (exampleRequest ("GEMBA-XXL")).method)), []) ∧
    score_translation (some ("analyst")) (exampleRequest ("GEMBA-XXL")) parseFailStub
        ("gpt-4o-mini") 7 11 [rowA] =
      ([rowA], .httpError 500
        ("Unsupported scoring method: " ++ (exampleRequest ("GEMBA-XXL")).method)) := by
  have h := C4_unsupported_method (exampleRequest ("GEMBA-XXL")) parseFailStub
    ("gpt-4o-mini") 7 11 [rowA] (by decide)
  exact ⟨by decide, h.1, h.2.1⟩

/-! ## C5 -/

/-- C5: whenever the scoring service fails (parse error, missing structured
payload, or gateway failure), the POST /score handler returns a 5xx outcome,
the stored rows are unchanged, and no success response is produced. -/
theorem C5_failure_not_persisted (x_app_id : Option String) (app_id : String)
    (payload : ScoreRequest) (llm : LLMClient) (model_name : String) (new_id now : Nat)
    (db : List TranslationScore) (e : ScoringError)
    (hx : require_app_id x_app_id = .ok app_id)
    (hfail : (ScoringService.score llm model_name payload).1 = .error e) :
    (score_translation x_app_id payload llm model_name new_id now db).1 = db ∧
    (score_translation x_app_id payload llm model_name new_id now db).2.status = 500 ∧
    ∀ resp, (score_translation x_app_id payload llm model_name new_id now db).2 ≠
      .ok resp := by
  unfold score_translation
  rw [hx, hfail]
  cases e with
  | scoringServiceError msg => exact ⟨rfl, rfl, fun resp h => ScoreOutcome.noConfusion h⟩
  | llmClientError msg => exact ⟨rfl, rfl, fun resp h => ScoreOutcome.noConfusion h⟩

/-- Concrete scoring failure: the completion text has no numeric token, the
table stays as it was and the outcome is a 500. -/
theorem C5_failure_not_persisted_witness :
    require_app_id (some ("analyst")) = .ok ("analyst") ∧
    (ScoringService.score parseFailStub ("gpt-4o-mini") (exampleRequest ("GEMBA-DA"))).1 =
      .error (.scoringServiceError ("Could not parse numeric score from LLM response")) ∧
    (score_translation (some ("analyst")) (exampleRequest ("GEMBA-DA")) parseFailStub
        ("gpt-4o-mini") 7 11 [rowA]).1 = [rowA] ∧
    (score_translation (some ("analyst")) (exampleRequest ("GEMBA-DA")) parseFailStub
        ("gpt-4o-mini") 7 11 [rowA]).2.status = 500 := by
  have h := C5_failure_not_persisted (some ("analyst")) ("analyst")
    (exampleRequest ("GEMBA-DA")) parseFailStub ("gpt-4o-mini") 7 11 [rowA]
    (.scoringServiceError ("Could not parse numeric score from LLM response"))
    (by decide) (by decide)
  exact ⟨by decide, by decide, h.1, h.2.1⟩

/-! ## C6 -/

/-- C6: on success, STRUCTURED-DA populates adequacy, fluency and rationale;
GEMBA-MQM populates rationale only; GEMBA-DA and GEMBA-ESA populate none of
the three. -/
theorem C6_optional_fields (payload : ScoreRequest) (llm : LLMClient)
    (model_name : String) (comp : ScoreComputation) (calls : List LLMCall) :
    (payload.method = "STRUCTURED-DA" →
      ScoringService.score llm model_name payload = (.ok comp, calls) →
      comp.adequacy.isSome ∧ comp.fluency.isSome ∧ comp.rationale.isSome) ∧
    (payload.method = "GEMBA-MQM" →
      ScoringService.score llm model_name payload = (.ok comp, calls) →
      comp.rationale.isSome ∧ comp.adequacy = none ∧ comp.fluency = none) ∧
    (payload.method = "GEMBA-DA" →
      ScoringService.score llm model_name payload = (.ok comp, calls) →
      comp.adequacy = none ∧ comp.fluency = none ∧ comp.rationale = none) ∧
    (payload.method = "GEMBA-ESA" →
      ScoringService.score llm model_name payload = (.ok comp, calls) →
      comp.adequacy = none ∧ comp.fluency = none ∧ comp.rationale = none) := by
  refine ⟨?_, ?_, ?_, ?_⟩
  · intro hm heq
    unfold ScoringService.score at heq
    rw [hm, if_neg (by decide), if_neg (by decide), if_neg (by decide), if_pos rfl] at heq
    simp only [score_structured_da] at heq
    rcases hp : llm.parseSDA [⟨"system", structured_da_system_message⟩,
        ⟨"user", structured_da_user_message payload⟩] with e | o
    · rw [hp] at heq; simp at heq
    · rcases o with - | parsed
      · rw [hp] at heq; simp at heq
      · rw [hp] at heq
        simp only [Prod.mk.injEq, Except.ok.injEq] at heq
        rw [← heq.1]
        exact ⟨rfl, rfl, rfl⟩
  · intro hm heq
    unfold ScoringService.score at heq
    rw [hm, if_neg (by decide), if_pos rfl] at heq
    simp only [score_gemba_mqm] at heq
    rcases hp : llm.parseMQM [⟨"system", gemba_mqm_system_prompt⟩,
        ⟨"user", gemba_mqm_few_shot_user⟩, ⟨"assistant", few_shot_assistant⟩,
        ⟨"user", gemba_mqm_final_user payload⟩] with e | o
    · rw [hp] at heq; simp at heq
    · rcases o with - | parsed
      · rw [hp] at heq; simp at heq
      · rw [hp] at heq
        simp only [Prod.mk.injEq, Except.ok.injEq] at heq
        rw [← heq.1]
        exact ⟨rfl, rfl, rfl⟩
  · intro hm heq
    unfold ScoringService.score at heq
    rw [hm, if_pos rfl] at heq
    rcases hc : llm.complete [⟨"user", gemba_da_prompt payload⟩] with e | response
    · rw [show score_gemba_da llm model_name payload =
          (.error (.llmClientError e), [.complete [⟨"user", gemba_da_prompt payload⟩]])
        from by simp only [score_gemba_da, hc]] at heq
      simp at heq
    · rcases he : extract_last_number response with msg | score
      · rw [show score_gemba_da llm model_name payload =
            (.error (.scoringServiceError msg),
             [.complete [⟨"user", gemba_da_prompt payload⟩]])
          from by simp only [score_gemba_da, hc, he]] at heq
        simp at heq
      · rw [show score_gemba_da llm model_name payload =
            (.ok { method := payload.method, score := score, llm_model := model_name,
                   raw_response := response },
             [.complete [⟨"user", gemba_da_prompt payload⟩]])
          from by simp only [score_gemba_da, hc, he]] at heq
        simp only [Prod.mk.injEq, Except.ok.injEq] at heq
        rw [← heq.1]
        exact ⟨rfl, rfl, rfl⟩
  · intro hm heq
    unfold ScoringService.score at heq
    rw [hm, if_neg (by decide), if_neg (by decide), if_pos rfl] at heq
    rcases hc : llm.complete [⟨"user", gemba_esa_error_prompt payload⟩] with e | ea
    · rw [show score_gemba_esa llm model_name payload =
          (.error (.llmClientError e),
           [.complete [⟨"user", gemba_esa_error_prompt payload⟩]])
        from by simp only [score_gemba_esa, hc]] at heq
      simp at heq
    · rcases hc2 : llm.complete [⟨"user", gemba_esa_scoring_prompt payload ea⟩] with e | sr
      · rw [show score_gemba_esa llm model_name payload =
            (.error (.llmClientError e),
             [.complete [⟨"user", gemba_esa_error_prompt payload⟩],
              .complete [⟨"user", gemba_esa_scoring_prompt payload ea⟩]])
          from by simp only [score_gemba_esa, hc, hc2]] at heq
        simp at heq
      · rcases he : extract_last_number sr with msg | score
        · rw [show score_gemba_esa llm model_name payload =
              (.error (.scoringServiceError msg),
               [.complete [⟨"user", gemba_esa_error_prompt payload⟩],
                .complete [⟨"user", gemba_esa_scoring_prompt payload ea⟩]])
            from by simp only [score_gemba_esa, hc, hc2, he]] at heq
          simp at heq
        · rw [show score_gemba_esa llm model_name payload =
              (.ok { method := payload.method, score := score, llm_model := model_name,
                     raw_response := "Errors:\n" ++ ea ++ "\n---\nScore:\n" ++ sr },
               [.complete [⟨"user", gemba_esa_error_prompt payload⟩],
                .complete [⟨"user", gemba_esa_scoring_prompt payload ea⟩]])
            from by simp only [score_gemba_esa, hc, hc2, he]] at heq
          simp only [Prod.mk.injEq, Except.ok.injEq] at heq
          rw [← heq.1]
          exact ⟨rfl, rfl, rfl⟩

/-- Concrete STRUCTURED-DA run of C6_optional_fields against okStub. -/
theorem C6_optional_fields_witness :
    sdaComp.adequacy.isSome ∧ sdaComp.fluency.isSome ∧ sdaComp.rationale.isSome :=
  (C6_optional_fields (exampleRequest ("STRUCTURED-DA")) okStub ("gpt-4o-mini") sdaComp
      [.parseSDA [⟨"system", structured_da_system_message⟩,
        ⟨"user", structured_da_user_message (exampleRequest ("STRUCTURED-DA"))⟩]]).1
    rfl rfl

/-! ## C7 -/

/-- C7: GET /api/v1/scores validates limit (integer in [1,200], default 25)
and threshold (float in [0,100]); accepted queries return records
newest-first by creation timestamp, truncated to limit, with score <=
threshold when a threshold is given, and app_id exactly matched when an
app_id is given. -/
theorem C7_list_scores_query (rows : List TranslationScore) (threshold : Option ℚ)
    (app_id : Option String) (l lbad : Int) (tbad : ℚ)
    (hl : 1 ≤ l ∧ l ≤ 200)
    (hthr : thresholdValid threshold = true)
    (ha : appIdValid app_id = true)
    (hlbad : lbad < 1 ∨ 200 < lbad)
    (htbad : tbad < 0 ∨ 100 < tbad) :
    list_scores_endpoint none threshold app_id rows =
      .ok (list_scores 25 threshold app_id rows) ∧
    list_scores_endpoint (some lbad) threshold app_id rows = .error 422 ∧
    list_scores_endpoint (some l) (some tbad) app_id rows = .error 422 ∧
    list_scores_endpoint (some l) threshold app_id rows =
      .ok (list_scores l.toNat threshold app_id rows) ∧
    (list_scores l.toNat threshold app_id rows).Pairwise
      (fun x y => y.created_at ≤ x.created_at) ∧
    (list_scores l.toNat threshold app_id rows).length ≤ l.toNat ∧
    ∀ rec ∈ list_scores l.toNat threshold app_id rows,
      (∀ t, threshold = some t → rec.score ≤ t) ∧
      (∀ a, app_id = some a → a ≠ "" → rec.app_id = a) := by
  have hlv : limitValid l = true := by
    simp only [limitValid, Bool.and_eq_true, decide_eq_true_eq]
    exact hl
  refine ⟨?_, ?_, ?_, ?_, ?_, ?_, ?_⟩
  · unfold list_scores_endpoint
    simp [hthr, ha, show limitValid 25 = true from by decide]
  · have hbad : limitValid lbad = false := by
      rcases hlbad with h | h
      · simp [limitValid, show ¬ ((1:ℤ) ≤ lbad) from by omega]
      · simp [limitValid, show ¬ (lbad ≤ (200:ℤ)) from by omega]
    unfold list_scores_endpoint
    simp [hbad]
  · have htv : thresholdValid (some tbad) = false := by
      rcases htbad with h | h
      · simp [thresholdValid, show ¬ ((0:ℚ) ≤ tbad) from by linarith]
      · simp [thresholdValid, show ¬ (tbad ≤ (100:ℚ)) from by linarith]
    unfold list_scores_endpoint
    simp [htv]
  · unfold list_scores_endpoint
    simp [hlv, hthr, ha]
  · unfold list_scores
    refine List.pairwise_map.mpr ?_
    have hs : (newestFirst (rows.filter (rowMatches threshold app_id))).Pairwise newerEq :=
      List.sorted_insertionSort newerEq _
    exact (List.Pairwise.sublist (List.take_sublist _ _) hs).imp (fun h => h)
  · unfold list_scores
    simp only [List.length_map, List.length_take]
    exact min_le_left _ _
  · intro rec hrec
    obtain ⟨row, hrow, rfl, hmatch⟩ := mem_list_scores hrec
    unfold rowMatches at hmatch
    rw [Bool.and_eq_true] at hmatch
    refine ⟨?_, ?_⟩
    · intro t ht
      subst ht
      have h1 : decide (row.score ≤ t) = true := hmatch.1
      exact of_decide_eq_true h1
    · intro a haq hane
      subst haq
      have h2 : (if a = "" then true else decide (row.app_id = a)) = true := hmatch.2
      rw [if_neg hane] at h2
      exact of_decide_eq_true h2

/-- Concrete listing query: limit 2, threshold 60, app_id filter. -/
theorem C7_list_scores_query_witness :
    ((1:ℤ) ≤ 2 ∧ (2:ℤ) ≤ 200) ∧
    thresholdValid (some 60) = true ∧
    appIdValid (some ("ui-test")) = true ∧
    ((0:ℤ) < 1 ∨ (200:ℤ) < 0) ∧
    ((101:ℚ) < 0 ∨ (100:ℚ) < 101) ∧
    list_scores_endpoint (some 2) (some 60) (some ("ui-test")) rowsFixture =
      .ok (list_scores (2:ℤ).toNat (some 60) (some ("ui-test")) rowsFixture) ∧
    (list_scores (2:ℤ).toNat (some 60) (some ("ui-test")) rowsFixture).Pairwise
      (fun x y => y.created_at ≤ x.created_at) := by
  have h := C7_list_scores_query rowsFixture (some 60) (some ("ui-test")) 2 0 101
    (by constructor <;> decide) (by decide) (by decide) (by left; decide)
    (by right; norm_num)
  exact ⟨⟨by decide, by decide⟩, by decide, by decide, Or.inl (by decide),
    Or.inr (by norm_num), h.2.2.2.1, h.2.2.2.2.1⟩

/-! ## C8 -/

/-- C8: an absent or blank X-APP-ID header makes POST /score fail with HTTP
401 and the message "Missing X-APP-ID header" (which contains "Missing
X-APP-ID"), with the stored rows unchanged and no dependence on the gateway
or payload — nothing is scored or persisted. -/
theorem C8_missing_app_id (x_app_id : Option String) (payload : ScoreRequest)
    (llm : LLMClient) (model_name : String) (new_id now : Nat)
    (db : List TranslationScore)
    (hx : x_app_id = none ∨ ∃ s, x_app_id = some s ∧ pyStrip s = "") :
    score_translation x_app_id payload llm model_name new_id now db =
      (db, .httpError 401 ("Missing X-APP-ID header")) ∧
    ContainsStr ("Missing X-APP-ID header") ("Missing X-APP-ID") := by
  constructor
  · rcases hx with h | ⟨s, hs, hblank⟩
    · subst h
      rfl
    · subst hs
      have hreq : require_app_id (some s) = .error (401, "Missing X-APP-ID header") := by
        simp [require_app_id, hblank]
      simp only [score_translation, hreq]
  · exact ⟨"", " header", by decide⟩

/-- Concrete blank header rejected with 401. -/
theorem C8_missing_app_id_witness :
    ((some ("   ") : Option String) = none ∨
      ∃ s, (some ("   ") : Option String) = some s ∧ pyStrip s = "") ∧
    score_translation (some ("   ")) (exampleRequest ("GEMBA-DA")) okStub ("gpt-4o-mini")
        7 11 [rowA] = ([rowA], .httpError 401 ("Missing X-APP-ID header")) :=
  ⟨Or.inr ⟨"   ", rfl, by decide⟩,
   (C8_missing_app_id (some ("   ")) (exampleRequest ("GEMBA-DA")) okStub ("gpt-4o-mini")
      7 11 [rowA] (Or.inr ⟨"   ", rfl, by decide⟩)).1⟩

/-! ## C9 -/

set_option maxHeartbeats 1600000 in
/-- C9: the request-dependent prompt builders are pure functions of the four
request text fields (same fields, same prompt — no hidden state), and each
produced prompt embeds the source language name, target language name,
source text and target text verbatim as substrings. -/
theorem C9_prompt_builders (p q : ScoreRequest) (errors : String)
    (hsl : p.source_lang = q.source_lang) (htl : p.target_lang = q.target_lang)
    (hst : p.source_text = q.source_text) (htt : p.target_text = q.target_text) :
    (gemba_da_prompt p = gemba_da_prompt q ∧
     gemba_mqm_final_user p = gemba_mqm_final_user q ∧
     gemba_esa_error_prompt p = gemba_esa_error_prompt q ∧
     gemba_esa_scoring_prompt p errors = gemba_esa_scoring_prompt q errors ∧
     structured_da_user_message p = structured_da_user_message q) ∧
    (ContainsStr (gemba_da_prompt p) p.source_lang ∧
     ContainsStr (gemba_da_prompt p) p.target_lang ∧
     ContainsStr (gemba_da_prompt p) p.source_text ∧
     ContainsStr (gemba_da_prompt p) p.target_text) ∧
    (ContainsStr (gemba_mqm_final_user p) p.source_lang ∧
     ContainsStr (gemba_mqm_final_user p) p.target_lang ∧
     ContainsStr (gemba_mqm_final_user p) p.source_text ∧
     ContainsStr (gemba_mqm_final_user p) p.target_text) ∧
    (ContainsStr (gemba_esa_error_prompt p) p.source_lang ∧
     ContainsStr (gemba_esa_error_prompt p) p.target_lang ∧
     ContainsStr (gemba_esa_error_prompt p) p.source_text ∧
     ContainsStr (gemba_esa_error_prompt p) p.target_text) ∧
    (ContainsStr (gemba_esa_scoring_prompt p errors) p.source_lang ∧
     ContainsStr (gemba_esa_scoring_prompt p errors) p.target_lang ∧
     ContainsStr (gemba_esa_scoring_prompt p errors) p.source_text ∧
     ContainsStr (gemba_esa_scoring_prompt p errors) p.target_text) ∧
    (ContainsStr (structured_da_user_message p) p.source_lang ∧
     ContainsStr (structured_da_user_message p) p.target_lang ∧
     ContainsStr (structured_da_user_message p) p.source_text ∧
     ContainsStr (structured_da_user_message p) p.target_text) := by
  refine ⟨⟨?_, ?_, ?_, ?_, ?_⟩, ⟨?_, ?_, ?_, ?_⟩, ⟨?_, ?_, ?_, ?_⟩, ⟨?_, ?_, ?_, ?_⟩,
    ⟨?_, ?_, ?_, ?_⟩, ⟨?_, ?_, ?_, ?_⟩⟩
  · unfold gemba_da_prompt
    rw [hsl, htl, hst, htt]
  · unfold gemba_mqm_final_user
    rw [hsl, htl, hst, htt]
  · unfold gemba_esa_error_prompt
    rw [hsl, htl, hst, htt]
  · unfold gemba_esa_scoring_prompt
    rw [hsl, htl, hst, htt]
  · unfold structured_da_user_message
    rw [hsl, htl, hst, htt]
  all_goals
    simp only [gemba_da_prompt, gemba_mqm_final_user, gemba_esa_error_prompt,
      gemba_esa_scoring_prompt, structured_da_user_message]
  all_goals
    repeat first
      | exact containsStr_appendL _ (containsStr_refl _)
      | exact containsStr_refl _
      | apply containsStr_appendR

/-- Concrete determinism and verbatim-embedding instance for C9. -/
theorem C9_prompt_builders_witness :
    (exampleRequest ("GEMBA-DA")).source_lang = (exampleRequest ("GEMBA-MQM")).source_lang ∧
    (exampleRequest ("GEMBA-DA")).target_lang = (exampleRequest ("GEMBA-MQM")).target_lang ∧
    (exampleRequest ("GEMBA-DA")).source_text = (exampleRequest ("GEMBA-MQM")).source_text ∧
    (exampleRequest ("GEMBA-DA")).target_text = (exampleRequest ("GEMBA-MQM")).target_text ∧
    gemba_da_prompt (exampleRequest ("GEMBA-DA")) =
      gemba_da_prompt (exampleRequest ("GEMBA-MQM")) ∧
    ContainsStr (gemba_da_prompt (exampleRequest ("GEMBA-DA")))
      (exampleRequest ("GEMBA-DA")).source_lang := by
  have h := C9_prompt_builders (exampleRequest ("GEMBA-DA")) (exampleRequest ("GEMBA-MQM"))
    ("") rfl rfl rfl rfl
  exact ⟨rfl, rfl, rfl, rfl, h.1.1, h.2.1.1⟩

/-! ## C10 -/

/-- C10: for an accepted request the persisted row stores the X-APP-ID
header with surrounding whitespace stripped — a header non-empty only after
trimming is accepted, the stored value is exactly the trimmed header, and
the GET /scores app_id filter matches the row under that trimmed value. -/
theorem C10_app_id_trimmed (s : String) (payload : ScoreRequest) (llm : LLMClient)
    (model_name : String) (new_id now : Nat) (db : List TranslationScore)
    (comp : ScoreComputation) (calls : List LLMCall)
    (hs : pyStrip s ≠ "")
    (hscore : ScoringService.score llm model_name payload = (.ok comp, calls)) :
    ∃ record : TranslationScore,
      score_translation (some s) payload llm model_name new_id now db =
        (db ++ [record],
         .ok { score := comp.score, method_used := payload.method, request_id := new_id,
               adequacy := comp.adequacy, fluency := comp.fluency,
               rationale := comp.rationale }) ∧
      record.app_id = pyStrip s ∧
      record.raw_llm_response = some comp.raw_response ∧
      rowMatches none (some (pyStrip s)) record = true := by
  refine ⟨{ id := new_id, app_id := pyStrip s, source_lang := payload.source_lang,
            target_lang := payload.target_lang, source_text := payload.source_text,
            target_text := payload.target_text, scoring_method := payload.method,
            llm_model := comp.llm_model, score := comp.score,
            adequacy_score := comp.adequacy, fluency_score := comp.fluency,
            rationale := comp.rationale, raw_llm_response := some comp.raw_response,
            created_at := now }, ?_, rfl, rfl, ?_⟩
  · have hreq : require_app_id (some s) = .ok (pyStrip s) := by
      simp [require_app_id, hs]
    simp only [score_translation, hreq, hscore]
  · show (true && (if pyStrip s = "" then true
      else decide ((pyStrip s) = pyStrip s))) = true
    rw [if_neg hs]
    simp

/-- Concrete header with surrounding whitespace, accepted and stored
trimmed. -/
theorem C10_app_id_trimmed_witness :
    pyStrip ("  tenant-42 ") ≠ "" ∧
    ScoringService.score okStub ("gpt-4o-mini") (exampleRequest ("GEMBA-DA")) =
      (.ok { method := "GEMBA-DA", score := 77, llm_model := "gpt-4o-mini",
             raw_response := "Score: 77" },
       [.complete [⟨"user", gemba_da_prompt (exampleRequest ("GEMBA-DA"))⟩]]) ∧
    ∃ record : TranslationScore,
      score_translation (some ("  tenant-42 ")) (exampleRequest ("GEMBA-DA")) okStub
          ("gpt-4o-mini") 7 11 [rowA] =
        ([rowA] ++ [record],
         .ok { score := 77, method_used := (exampleRequest ("GEMBA-DA")).method,
               request_id := 7, adequacy := none, fluency := none, rationale := none }) ∧
      record.app_id = pyStrip ("  tenant-42 ") ∧
      record.raw_llm_response = some ("Score: 77") ∧
      rowMatches none (some (pyStrip ("  tenant-42 "))) record = true := by
  refine ⟨by decide, by decide, ?_⟩
  have h := C10_app_id_trimmed ("  tenant-42 ") (exampleRequest ("GEMBA-DA")) okStub
    ("gpt-4o-mini") 7 11 [rowA]
    { method := "GEMBA-DA", score := 77, llm_model := "gpt-4o-mini",
      raw_response := "Score: 77" }
    [.complete [⟨"user", gemba_da_prompt (exampleRequest ("GEMBA-DA"))⟩]]
    (by decide) (by decide)
  exact h
